import Mathlib

/-!
Verification of the navigation reconciliation engine in
`src/libs/Navigation/linkTo.ts`.

The embedding mirrors the TypeScript/JavaScript semantics of the three
declarations of that file — `getMinimalAction`, `isModalNavigator` and
`linkTo` — over explicit Lean data types:

* JavaScript `undefined`/optional values become `Option`;
* a property that may be *absent* and may also be present with value
  `undefined` (the `name` key of an action payload, tested with the
  JavaScript `in` operator) becomes `Option (Option String)`;
* a JavaScript `TypeError` (reading `.name` of `undefined` when an array
  lookup misses) becomes `Except.error ()`;
* the side effects of `linkTo` (calls to `dismissModal`, `dispatch`,
  `reset`, and the raised errors) are collected in a trace structure.

The external collaborators (`getStateFromPath`, `getActionFromState`,
`getTopmostReportId`) and the string constants from `CONST.ts` /
`NAVIGATORS.ts` are not part of the excerpted sources; they are passed as
parameters, respectively modelled from the spec.
-/

set_option maxHeartbeats 1000000

namespace LinkToSpec

/-- A `screen` / `params` / `path` triple as it appears (recursively) inside
an action payload's `params` field.  A `params` value that is not an object
of this shape is modelled as the triple with all three fields absent, which
is indistinguishable to the code, since the code only ever reads these three
properties via optional chaining. -/
inductive ParamsVal where
  | mk (screen : Option String) (params : Option ParamsVal) (path : Option String)


/-- The `screen` field of a params triple (`payload.params?.screen`). -/
def ParamsVal.screen : ParamsVal → Option String
  | .mk s _ _ => s

/-- The nested `params` field of a params triple (`payload.params?.params`). -/
def ParamsVal.params : ParamsVal → Option ParamsVal
  | .mk _ p _ => p

/-- The `path` field of a params triple (`payload.params?.path`). -/
def ParamsVal.path : ParamsVal → Option String
  | .mk _ _ p => p

/-- An action payload.  `name` is `Option (Option String)`: the outer layer
records whether the `name` property exists at all (the code tests
`'name' in payload`), the inner layer its value (which is `undefined` for a
rebuilt payload whose `params.screen` was absent). -/
structure ActionPayload where
  name : Option (Option String)
  params : Option ParamsVal
  path : Option String


/-- A `NavigationAction`: `type`, optional `payload`, optional `target` key. -/
structure NavAction where
  type : String
  payload : Option ActionPayload
  target : Option String


/-- One route entry of a navigator (react-navigation `Route`), parametric in
the type of the nested navigator state so it can be used in the nested
inductive `NavState`. -/
structure RouteF (σ : Type) where
  name : String
  key : Option String
  params : Option ParamsVal
  state : Option σ


/-- A `NavigationState | PartialState<NavigationState>` tree: ordered
`routes`, optional active `index` (absent in partial states), optional
navigator `key`. -/
inductive NavState where
  | mk (routes : List (RouteF NavState)) (index : Option Nat) (key : Option String)

/-- The `routes` field of a navigation state. -/
def NavState.routes : NavState → List (RouteF NavState)
  | .mk r _ _ => r

/-- The `index` field of a navigation state. -/
def NavState.index : NavState → Option Nat
  | .mk _ i _ => i

/-- The `key` field of a navigation state. -/
def NavState.key : NavState → Option String
  | .mk _ _ k => k

/-- The active-route lookup `state.routes[state.index ?? -1]` performed by
`getMinimalAction`.  When `index` is set the element at that position is
returned if it exists; when `index` is unset the JavaScript code reads
`routes[-1]`, which is `undefined` (bracket indexing does not wrap around),
so the lookup misses. -/
def activeRouteLookup (s : NavState) : Option (RouteF NavState) :=
  match s.index with
  | some i => s.routes.get? i
  | none => none

/-- Rebuilding the payload one level down, as in the loop body of
`getMinimalAction`:
`\x7bname: payload?.params?.screen, params: payload?.params?.params, path: payload?.params?.path\x7d`.
The `name` property of the rebuilt payload always exists (outer `some`) but
its value is absent when `params.screen` is. -/
def unwrapPayload (p : ActionPayload) : ActionPayload :=
  { name := some (p.params.bind ParamsVal.screen)
  , params := p.params.bind ParamsVal.params
  , path := p.params.bind ParamsVal.path }

/-- Embedding of `getMinimalAction` (`linkTo.ts` lines 30–57).  The `while` loop is
rendered as recursion on the state being descended into.  The loop guard is
`currentAction.payload && 'name' in currentAction.payload &&
currentState?.routes[currentState.index ?? -1].name === currentAction.payload.name`;
when the payload checks pass but the route lookup misses, reading `.name`
of `undefined` raises a `TypeError`, modelled by `Except.error ()`. -/
def getMinimalAction (a : NavAction) (s : NavState) : Except Unit NavAction :=
  match a.payload with
  | none => Except.ok a
  | some p =>
    match p.name with
    | none => Except.ok a
    | some v =>
      match hr : activeRouteLookup s with
      | none => Except.error ()
      | some r =>
        if v = some r.name then
          match hs : r.state with
          | none => Except.ok a
          | some ns =>
            getMinimalAction
              { type := a.type
              , payload := some (unwrapPayload p)
              , target := ns.key } ns
        else Except.ok a
termination_by sizeOf s
decreasing_by
  have hmem : r ∈ s.routes := by
    unfold activeRouteLookup at hr
    cases hidx : s.index with
    | none => rw [hidx] at hr; cases hr
    | some i =>
      rw [hidx] at hr
      exact List.get?_mem hr
  have h1 : sizeOf r < sizeOf s.routes := List.sizeOf_lt_of_mem hmem
  have h2 : sizeOf ns < sizeOf r := by
    cases r with
    | mk n k pr st =>
      cases hs
      simp only [RouteF.mk.sizeOf_spec, Option.some.sizeOf_spec]
      omega
  cases s with
  | mk routes idx key =>
    simp only [NavState.routes] at h1
    simp only [NavState.mk.sizeOf_spec]
    omega

/-- Modelled from the spec: `CONST.NAVIGATION.ACTION_TYPE.NAVIGATE`
(`CONST.ts` is not part of the excerpted sources; §3 lists the action types). -/
def NAVIGATE : String := "NAVIGATE"

/-- Modelled from the spec: `CONST.NAVIGATION.ACTION_TYPE.PUSH`. -/
def PUSH : String := "PUSH"

/-- Modelled from the spec: `CONST.NAVIGATION.ACTION_TYPE.REPLACE`. -/
def REPLACE : String := "REPLACE"

/-- Modelled from the spec: `CONST.NAVIGATION.TYPE.FORCED_UP` intent hint (§4.4). -/
def FORCED_UP : String := "FORCED_UP"

/-- Modelled from the spec: `CONST.NAVIGATION.TYPE.UP` intent hint (§4.4). -/
def UP : String := "UP"

/-- Modelled from the spec: `NAVIGATORS.LEFT_MODAL_NAVIGATOR`, the
"left overlay" navigator kind of §4.2. -/
def LEFT_MODAL_NAVIGATOR : String := "LeftModalNavigator"

/-- Modelled from the spec: `NAVIGATORS.RIGHT_MODAL_NAVIGATOR`, the
"right overlay" navigator kind of §4.2. -/
def RIGHT_MODAL_NAVIGATOR : String := "RightModalNavigator"

/-- Modelled from the spec: `NAVIGATORS.CENTRAL_PANE_NAVIGATOR`, the
main-detail-pane navigator kind of §4.4 rule 2. -/
def CENTRAL_PANE_NAVIGATOR : String := "CentralPaneNavigator"

/-- Embedding of `isModalNavigator` (`linkTo.ts` lines 59–61):
`targetNavigator === NAVIGATORS.LEFT_MODAL_NAVIGATOR || targetNavigator === NAVIGATORS.RIGHT_MODAL_NAVIGATOR`. -/
def isModalNavigator (targetNavigator : Option String) : Bool :=
  targetNavigator = some LEFT_MODAL_NAVIGATOR ∨ targetNavigator = some RIGHT_MODAL_NAVIGATOR

/-- Embedding of `rootState?.routes?.at(-1)?.name` (`linkTo.ts` line 83): the name of the
last route of the root state, when present. -/
def topRouteNameOf (rootState : Option NavState) : Option String :=
  (rootState.bind fun rs => rs.routes.getLast?).map fun r => r.name

/-- The external collaborators consumed by `linkTo` (spec §6); they are not
part of the excerpted sources and are passed as parameters:
`getStateFromPath` (deterministic, returns a state tree),
`getActionFromState` (may return `undefined`), and `getTopmostReportId`
(the "detail identifier" extractor, callable on a possibly-undefined state). -/
structure LinkEnv where
  getStateFromPath : String → NavState
  getActionFromState : NavState → Option NavAction
  getTopmostReportId : Option NavState → Option String

/-- The navigation handle, reduced to the two point-in-time root-state reads
`linkTo` performs: `root.getState()` (line 77, possibly undefined) and
`navigation.getRootState()` (line 109, used for minimization). -/
structure NavHandle where
  rootState : Option NavState
  minimalRootState : NavState

/-- The errors `linkTo` can raise: the explicit missing-handle `throw`
(lines 64–66), the `TypeError` from reading `action.payload.name` when a
resolved NAVIGATE action has no payload (line 84), and a `TypeError`
propagated out of `getMinimalAction` (line 109). -/
inductive LinkErr where
  | noHandle
  | payloadFault
  | minimalFault
deriving DecidableEq, Repr

/-- The observable behaviour of one `linkTo` call: how many times
`dismissModal` ran, the action passed to `root.dispatch` (if any), the state
passed to `root.reset` (if any), and the error raised (if any). -/
structure LinkTrace where
  dismissCount : Nat
  dispatched : Option NavAction
  resetTo : Option NavState
  err : Option LinkErr

/-- The intent-override policy block of `linkTo` (`linkTo.ts` lines 82–106),
applied to the resolved action.  Returns the (possibly rewritten) action and
the number of `dismissModal` calls, or an error when `action.payload.name`
is read on an undefined payload.  The rules, evaluated first-match-wins and
only when `action.type === NAVIGATE`:
FORCED_UP hint, central-pane with differing report ids, UP hint, and
modal navigator not already on top (dismissing a currently-top modal). -/
def applyPolicy (env : LinkEnv) (action : NavAction) (rootState : Option NavState)
    (state : NavState) (ty : Option String) : Except Unit (NavAction × Nat) :=
  if action.type = NAVIGATE then
    match action.payload with
    | none => Except.error ()
    | some p =>
      let topRouteName := topRouteNameOf rootState
      let payloadName := Option.join p.name
      if ty = some FORCED_UP then
        Except.ok ({ action with type := REPLACE }, 0)
      else if payloadName = some CENTRAL_PANE_NAVIGATOR ∧
          env.getTopmostReportId rootState ≠ env.getTopmostReportId (some state) then
        Except.ok ({ action with type := PUSH }, 0)
      else if ty = some UP then
        Except.ok ({ action with type := REPLACE }, 0)
      else if isModalNavigator payloadName ∧ ¬ topRouteName = payloadName then
        Except.ok ({ action with type := PUSH },
          if isModalNavigator topRouteName then 1 else 0)
      else
        Except.ok (action, 0)
  else Except.ok (action, 0)

/-- The guard of the minimization branch (`linkTo.ts` line 108):
`action && 'payload' in action && action.payload && 'name' in action.payload
&& isModalNavigator(action.payload.name)`. -/
def isModalTargetedAction (a : NavAction) : Bool :=
  match a.payload with
  | none => false
  | some p => p.name.isSome && isModalNavigator (Option.join p.name)

/-- The modal-minimization branch of `linkTo` (`linkTo.ts` lines 109–124):
minimize the (rewritten) action against the root state, apply the two
forcing rules (`!isActiveRoute && type === PUSH` forces PUSH, `type ===
REPLACE` forces REPLACE), and dispatch; a `TypeError` escaping
`getMinimalAction` aborts the call after the policy's side effects. -/
def modalMinimalDispatch (a : NavAction) (rootForMinimal : NavState)
    (ty : Option String) (isActiveRoute : Option Bool) (dc : Nat) : LinkTrace :=
  match getMinimalAction a rootForMinimal with
  | Except.error _ =>
    { dismissCount := dc, dispatched := none, resetTo := none, err := some LinkErr.minimalFault }
  | Except.ok m =>
    let m1 := if ¬ isActiveRoute = some true ∧ ty = some PUSH then { m with type := PUSH } else m
    let m2 := if ty = some REPLACE then { m1 with type := REPLACE } else m1
    { dismissCount := dc, dispatched := some m2, resetTo := none, err := none }

/-- Embedding of `linkTo` (`linkTo.ts` lines 63–132).  The handle check, the collaborator
calls, the policy block, the modal-minimization branch with its two forcing
rules, the direct dispatch and the reset fallback are rendered in source
order; the result is the trace of observable effects. -/
def linkTo (env : LinkEnv) (navigation : Option NavHandle) (path : String)
    (ty : Option String) (isActiveRoute : Option Bool) : LinkTrace :=
  match navigation with
  | none => { dismissCount := 0, dispatched := none, resetTo := none, err := some LinkErr.noHandle }
  | some nav =>
    let rootState : Option NavState := nav.rootState
    let state : NavState := env.getStateFromPath path
    match env.getActionFromState state with
    | none =>
      { dismissCount := 0, dispatched := none, resetTo := some state, err := none }
    | some a0 =>
      match applyPolicy env a0 rootState state ty with
      | Except.error _ =>
        { dismissCount := 0, dispatched := none, resetTo := none, err := some LinkErr.payloadFault }
      | Except.ok (a, dc) =>
        if isModalTargetedAction a then
          modalMinimalDispatch a nav.minimalRootState ty isActiveRoute dc
        else
          { dismissCount := dc, dispatched := some a, resetTo := none, err := none }

/-! ### Unfolding lemmas for `getMinimalAction`

One lemma per exit/step of the loop, obtained from the equational lemma of
the well-founded definition. -/

theorem getMinimalAction_payload_none (a : NavAction) (s : NavState)
    (h : a.payload = none) : getMinimalAction a s = Except.ok a := by
  rw [getMinimalAction.eq_def, h]

theorem getMinimalAction_name_absent (a : NavAction) (s : NavState) (p : ActionPayload)
    (hp : a.payload = some p) (hn : p.name = none) :
    getMinimalAction a s = Except.ok a := by
  rw [getMinimalAction.eq_def, hp]
  simp only [hn]

theorem getMinimalAction_lookup_miss (a : NavAction) (s : NavState)
    (p : ActionPayload) (v : Option String)
    (hp : a.payload = some p) (hn : p.name = some v)
    (hr : activeRouteLookup s = none) :
    getMinimalAction a s = Except.error () := by
  rw [getMinimalAction.eq_def, hp]
  simp only [hn]
  split <;> simp_all

theorem getMinimalAction_name_mismatch (a : NavAction) (s : NavState)
    (p : ActionPayload) (v : Option String) (r : RouteF NavState)
    (hp : a.payload = some p) (hn : p.name = some v)
    (hr : activeRouteLookup s = some r) (hne : ¬ v = some r.name) :
    getMinimalAction a s = Except.ok a := by
  rw [getMinimalAction.eq_def, hp]
  simp only [hn]
  split <;> simp_all

theorem getMinimalAction_no_state (a : NavAction) (s : NavState)
    (p : ActionPayload) (v : Option String) (r : RouteF NavState)
    (hp : a.payload = some p) (hn : p.name = some v)
    (hr : activeRouteLookup s = some r) (heq : v = some r.name)
    (hst : r.state = none) :
    getMinimalAction a s = Except.ok a := by
  rw [getMinimalAction.eq_def, hp]
  simp only [hn]
  split
  · rename_i hr2
    rw [hr2] at hr
    cases hr
  · rename_i r2 hr2
    rw [hr2] at hr
    injection hr with h
    subst h
    rw [if_pos heq]
    split <;> simp_all

theorem getMinimalAction_descend (a : NavAction) (s : NavState)
    (p : ActionPayload) (v : Option String) (r : RouteF NavState) (ns : NavState)
    (hp : a.payload = some p) (hn : p.name = some v)
    (hr : activeRouteLookup s = some r) (heq : v = some r.name)
    (hst : r.state = some ns) :
    getMinimalAction a s =
      getMinimalAction
        { type := a.type, payload := some (unwrapPayload p), target := ns.key } ns := by
  rw [getMinimalAction.eq_def, hp]
  simp only [hn]
  split
  · rename_i hr2
    rw [hr2] at hr
    cases hr
  · rename_i r2 hr2
    rw [hr2] at hr
    injection hr with h
    subst h
    rw [if_pos heq]
    split <;> simp_all

/-! ### Descent bookkeeping

Specification-side functions describing what one iteration of the
`getMinimalAction` loop does, used to state the k-level-descent claim. -/

/-- One successful descent of the loop of `getMinimalAction`: the payload has
a `name` property, its value equals the name of the active route, that route
has nested state; the result is the rebuilt smaller action and the nested
state descended into.  `none` when the loop would stop (or fault) instead. -/
def stepMA (a : NavAction) (s : NavState) : Option (NavAction × NavState) :=
  match a.payload with
  | none => none
  | some p =>
    match p.name with
    | none => none
    | some v =>
      match activeRouteLookup s with
      | none => none
      | some r =>
        if v = some r.name then
          match r.state with
          | none => none
          | some ns =>
            some ({ type := a.type, payload := some (unwrapPayload p), target := ns.key }, ns)
        else none

/-- Iterated descent: `k` successful descents in sequence; the first `k` levels of the action's
name-chain match the tree's active branch and each carries nested state. -/
def stepsK : Nat → NavAction → NavState → Option (NavAction × NavState)
  | 0, a, s => some (a, s)
  | k + 1, a, s => (stepMA a s).bind fun p => stepsK k p.1 p.2

/-- The node of the tree reached after `k` descents along the active branch
(through the nested state of the active route at each level). -/
def nodeAt : Nat → NavState → Option NavState
  | 0, s => some s
  | k + 1, s => ((activeRouteLookup s).bind RouteF.state).bind (nodeAt k)

/-- The payload obtained after unwrapping `k` levels of
`params.screen` / `params.params` / `params.path`. -/
def unwrapIter : Nat → ActionPayload → ActionPayload
  | 0, p => p
  | k + 1, p => unwrapIter k (unwrapPayload p)

/-- The loop of `getMinimalAction` stops gracefully at this configuration:
the payload is absent, or has no `name` property, or the active route exists
and its name differs, or it matches but carries no nested state.  (A missing
active route with a named payload is *not* a graceful stop: it faults.) -/
def stopsNow (a : NavAction) (s : NavState) : Bool :=
  match a.payload with
  | none => true
  | some p =>
    match p.name with
    | none => true
    | some v =>
      match activeRouteLookup s with
      | none => false
      | some r => if v = some r.name then r.state.isNone else true

theorem getMinimalAction_stop (a : NavAction) (s : NavState)
    (h : stopsNow a s = true) : getMinimalAction a s = Except.ok a := by
  cases hp : a.payload with
  | none => exact getMinimalAction_payload_none a s hp
  | some p =>
    cases hn : p.name with
    | none => exact getMinimalAction_name_absent a s p hp hn
    | some v =>
      cases hr : activeRouteLookup s with
      | none =>
        exfalso
        simp only [stopsNow, hp, hn, hr] at h
        simp at h
      | some r =>
        by_cases heq : v = some r.name
        · cases hst : r.state with
          | none => exact getMinimalAction_no_state a s p v r hp hn hr heq hst
          | some ns =>
            exfalso
            simp only [stopsNow, hp, hn, hr] at h
            rw [if_pos heq, hst] at h
            simp at h
        · exact getMinimalAction_name_mismatch a s p v r hp hn hr heq

theorem stepMA_some (a : NavAction) (s : NavState) (a' : NavAction) (s' : NavState)
    (h : stepMA a s = some (a', s')) :
    getMinimalAction a s = getMinimalAction a' s' ∧
    a'.type = a.type ∧ a'.target = s'.key ∧
    (∀ p, a.payload = some p → a'.payload = some (unwrapPayload p)) ∧
    (activeRouteLookup s).bind RouteF.state = some s' := by
  unfold stepMA at h
  cases hp : a.payload with
  | none =>
    simp only [hp] at h
    exact Option.noConfusion h
  | some p =>
    simp only [hp] at h
    cases hn : p.name with
    | none =>
      simp only [hn] at h
      exact Option.noConfusion h
    | some v =>
      simp only [hn] at h
      cases hr : activeRouteLookup s with
      | none =>
        simp only [hr] at h
        exact Option.noConfusion h
      | some r =>
        simp only [hr] at h
        by_cases heq : v = some r.name
        · rw [if_pos heq] at h
          cases hst : r.state with
          | none =>
            simp only [hst] at h
            exact Option.noConfusion h
          | some ns =>
            simp only [hst] at h
            injection h with h2
            injection h2 with ha hs
            subst ha
            subst hs
            refine ⟨getMinimalAction_descend a s p v r ns hp hn hr heq hst, rfl, rfl, ?_, ?_⟩
            · intro p' hp'
              injection hp' with hpp
              rw [hpp]
            · simp [hst]
        · rw [if_neg heq] at h
          exact Option.noConfusion h

theorem stepsK_trace (k : Nat) (a : NavAction) (s : NavState)
    (a' : NavAction) (s' : NavState)
    (hsteps : stepsK k a s = some (a', s')) :
    getMinimalAction a s = getMinimalAction a' s' ∧
    a'.type = a.type ∧ nodeAt k s = some s' ∧
    (1 ≤ k → a'.target = s'.key ∧
      ∀ p, a.payload = some p → a'.payload = some (unwrapIter k p)) ∧
    (k = 0 → a' = a ∧ s' = s) := by
  induction k generalizing a s with
  | zero =>
    unfold stepsK at hsteps
    injection hsteps with h2
    injection h2 with ha hs
    subst ha; subst hs
    exact ⟨rfl, rfl, rfl, fun hk => absurd hk (by omega), fun _ => ⟨rfl, rfl⟩⟩
  | succ k ih =>
    unfold stepsK at hsteps
    cases hstep : stepMA a s with
    | none => rw [hstep] at hsteps; simp at hsteps
    | some p1 =>
      rw [hstep] at hsteps
      simp only [Option.some_bind] at hsteps
      obtain ⟨a1, s1⟩ := p1
      obtain ⟨hgma1, hty1, htg1, hpl1, hnode1⟩ := stepMA_some a s a1 s1 hstep
      obtain ⟨hgma2, hty2, hnode2, hrest2, hzero2⟩ := ih a1 s1 hsteps
      refine ⟨hgma1.trans hgma2, hty2.trans hty1, ?_, ?_, ?_⟩
      · simp only [nodeAt, hnode1, Option.some_bind]
        exact hnode2
      · intro _
        constructor
        · cases Nat.eq_zero_or_pos k with
          | inl h0 =>
            obtain ⟨haa, hss⟩ := hzero2 h0
            subst haa; subst hss
            exact htg1
          | inr hpos => exact (hrest2 hpos).1
        · intro p hp
          cases Nat.eq_zero_or_pos k with
          | inl h0 =>
            obtain ⟨haa, hss⟩ := hzero2 h0
            subst haa; subst hss
            subst h0
            rw [hpl1 p hp]
            rfl
          | inr hpos =>
            have hh := (hrest2 hpos).2 (unwrapPayload p) (hpl1 p hp)
            rw [hh]
            rfl
      · intro hk
        omega

/-! ### Shape lemmas for `linkTo` -/

theorem linkTo_reset_shape (env : LinkEnv) (nav : NavHandle) (path : String)
    (ty : Option String) (iar : Option Bool)
    (ha : env.getActionFromState (env.getStateFromPath path) = none) :
    linkTo env (some nav) path ty iar =
      { dismissCount := 0, dispatched := none
      , resetTo := some (env.getStateFromPath path), err := none } := by
  unfold linkTo
  simp only [ha]

theorem linkTo_direct_shape (env : LinkEnv) (nav : NavHandle) (path : String)
    (ty : Option String) (iar : Option Bool) (a0 a : NavAction) (dc : Nat)
    (ha : env.getActionFromState (env.getStateFromPath path) = some a0)
    (hpol : applyPolicy env a0 nav.rootState (env.getStateFromPath path) ty = Except.ok (a, dc))
    (hmod : isModalTargetedAction a = false) :
    linkTo env (some nav) path ty iar =
      { dismissCount := dc, dispatched := some a, resetTo := none, err := none } := by
  unfold linkTo
  simp only [ha, hpol, hmod]
  simp

theorem linkTo_modal_shape (env : LinkEnv) (nav : NavHandle) (path : String)
    (ty : Option String) (iar : Option Bool) (a0 a : NavAction) (dc : Nat)
    (ha : env.getActionFromState (env.getStateFromPath path) = some a0)
    (hpol : applyPolicy env a0 nav.rootState (env.getStateFromPath path) ty = Except.ok (a, dc))
    (hmod : isModalTargetedAction a = true) :
    linkTo env (some nav) path ty iar =
      modalMinimalDispatch a nav.minimalRootState ty iar dc := by
  unfold linkTo
  simp only [ha, hpol, hmod]
  simp

theorem modalMinimalDispatch_fault (a : NavAction) (root : NavState)
    (ty : Option String) (iar : Option Bool) (dc : Nat)
    (hm : getMinimalAction a root = Except.error ()) :
    modalMinimalDispatch a root ty iar dc =
      { dismissCount := dc, dispatched := none, resetTo := none
      , err := some LinkErr.minimalFault } := by
  unfold modalMinimalDispatch
  rw [hm]

theorem modalMinimalDispatch_ok (a : NavAction) (root : NavState)
    (ty : Option String) (iar : Option Bool) (dc : Nat) (m : NavAction)
    (hm : getMinimalAction a root = Except.ok m) :
    modalMinimalDispatch a root ty iar dc =
      { dismissCount := dc
      , dispatched := some
          (if ty = some REPLACE then
            { (if ¬ iar = some true ∧ ty = some PUSH then { m with type := PUSH } else m)
              with type := REPLACE }
          else
            (if ¬ iar = some true ∧ ty = some PUSH then { m with type := PUSH } else m))
      , resetTo := none, err := none } := by
  unfold modalMinimalDispatch
  rw [hm]

/-! ### Claim theorems -/

/-- C2: when the action's payload has a `name` whose value differs from the
name of the tree's active top-level route, `getMinimalAction` returns the
input action unchanged (so in particular no `target` is set beyond whatever
the input carried); likewise it stops with the action built so far when the
payload is absent or lacks a `name` property, and when the matching active
route has no nested state. -/
theorem getMinimalAction_stops_unchanged (a : NavAction) (s : NavState)
    (h : (∃ p v r, a.payload = some p ∧ p.name = some v ∧
            activeRouteLookup s = some r ∧ ¬ v = some r.name) ∨
         a.payload = none ∨
         (∃ p, a.payload = some p ∧ p.name = none) ∨
         (∃ p v r, a.payload = some p ∧ p.name = some v ∧
            activeRouteLookup s = some r ∧ v = some r.name ∧ r.state = none)) :
    getMinimalAction a s = Except.ok a := by
  rcases h with ⟨p, v, r, hp, hn, hr, hne⟩ | hp | ⟨p, hp, hn⟩ | ⟨p, v, r, hp, hn, hr, heq, hst⟩
  · exact getMinimalAction_name_mismatch a s p v r hp hn hr hne
  · exact getMinimalAction_payload_none a s hp
  · exact getMinimalAction_name_absent a s p hp hn
  · exact getMinimalAction_no_state a s p v r hp hn hr heq hst

def c2p : ActionPayload := { name := some (some "SettingsScreen"), params := none, path := none }

def c2a : NavAction := { type := NAVIGATE, payload := some c2p, target := none }

def c2route : RouteF NavState := { name := "HomeScreen", key := some "rHome", params := none, state := none }

def c2s : NavState := NavState.mk [c2route] (some 0) (some "rootKey")

theorem getMinimalAction_stops_unchanged_witness :
    getMinimalAction c2a c2s = Except.ok c2a :=
  getMinimalAction_stops_unchanged c2a c2s
    (Or.inl ⟨c2p, some "SettingsScreen", c2route, rfl, rfl, rfl, by decide⟩)

/-- C3: when the resolved action has type NAVIGATE (with its payload, as the
types of the resolver guarantee) and the caller's hint is FORCED_UP, the
policy rewrites the action's type to REPLACE, with no dismissal, regardless
of the root state, the parsed state, the detail-identifier extractor, the UP
hint or any modal condition: rule 1 short-circuits every later rule. -/
theorem applyPolicy_forcedUp (env : LinkEnv) (a : NavAction)
    (rootState : Option NavState) (state : NavState) (p : ActionPayload)
    (hnav : a.type = NAVIGATE) (hp : a.payload = some p) :
    applyPolicy env a rootState state (some FORCED_UP) =
      Except.ok ({ a with type := REPLACE }, 0) := by
  unfold applyPolicy
  rw [if_pos hnav]
  simp only [hp]
  simp

def c3p : ActionPayload := { name := some (some CENTRAL_PANE_NAVIGATOR), params := none, path := none }

def c3a : NavAction := { type := NAVIGATE, payload := some c3p, target := none }

def c3s : NavState := NavState.mk [] (some 0) none

def c3env : LinkEnv :=
  { getStateFromPath := fun _ => c3s
  , getActionFromState := fun _ => some c3a
  , getTopmostReportId := fun st => (st.bind NavState.key) }

theorem applyPolicy_forcedUp_witness :
    applyPolicy c3env c3a none c3s (some FORCED_UP) =
      Except.ok ({ c3a with type := REPLACE }, 0) :=
  applyPolicy_forcedUp c3env c3a none c3s c3p rfl rfl

/-- C4: when the resolved action has type NAVIGATE, the hint is not
FORCED_UP, the payload's name is the central-pane navigator, and the detail
identifier extracted from the current root state differs from the one
extracted from the freshly parsed target state, the policy rewrites the
action's type to PUSH (no dismissal). -/
theorem applyPolicy_centralPane (env : LinkEnv) (a : NavAction)
    (rootState : Option NavState) (state : NavState) (p : ActionPayload)
    (ty : Option String)
    (hnav : a.type = NAVIGATE) (hp : a.payload = some p)
    (hty : ¬ ty = some FORCED_UP)
    (hname : Option.join p.name = some CENTRAL_PANE_NAVIGATOR)
    (hdiff : ¬ env.getTopmostReportId rootState = env.getTopmostReportId (some state)) :
    applyPolicy env a rootState state ty = Except.ok ({ a with type := PUSH }, 0) := by
  unfold applyPolicy
  rw [if_pos hnav]
  simp only [hp]
  rw [if_neg hty, if_pos (And.intro hname hdiff)]

def c4root : NavState := NavState.mk [] (some 0) (some "42")

def c4s : NavState := NavState.mk [] (some 0) (some "99")

theorem applyPolicy_centralPane_witness :
    applyPolicy c3env c3a (some c4root) c4s none =
      Except.ok ({ c3a with type := PUSH }, 0) :=
  applyPolicy_centralPane c3env c3a (some c4root) c4s c3p none rfl rfl
    (by decide) rfl (by decide)

/-- C5: when the resolved action has type NAVIGATE, the hint is neither
FORCED_UP nor UP, and the payload names a modal-style navigator (which rules
out the central-pane rule): if that navigator is not the name of the topmost
root route, the action's type is rewritten to PUSH and `dismissModal` runs
exactly once precisely when the current topmost route is itself a
modal-style navigator; if the target navigator is already topmost, the
action is returned unrewritten (type still NAVIGATE) with no dismissal. -/
theorem applyPolicy_modalRule (env : LinkEnv) (a : NavAction)
    (rootState : Option NavState) (state : NavState) (p : ActionPayload)
    (ty : Option String)
    (hnav : a.type = NAVIGATE) (hp : a.payload = some p)
    (hmodal : isModalNavigator (Option.join p.name) = true)
    (hty1 : ¬ ty = some FORCED_UP) (hty2 : ¬ ty = some UP) :
    (¬ topRouteNameOf rootState = Option.join p.name →
      applyPolicy env a rootState state ty =
        Except.ok ({ a with type := PUSH },
          if isModalNavigator (topRouteNameOf rootState) then 1 else 0)) ∧
    (topRouteNameOf rootState = Option.join p.name →
      applyPolicy env a rootState state ty = Except.ok (a, 0)) := by
  have hcp : ¬ (Option.join p.name = some CENTRAL_PANE_NAVIGATOR ∧
      ¬ env.getTopmostReportId rootState = env.getTopmostReportId (some state)) := by
    rintro ⟨h1, -⟩
    rw [h1] at hmodal
    exact absurd hmodal (by decide)
  constructor
  · intro htop
    unfold applyPolicy
    rw [if_pos hnav]
    simp only [hp]
    rw [if_neg hty1, if_neg hcp, if_neg hty2,
      if_pos (And.intro hmodal htop)]
  · intro htop
    unfold applyPolicy
    rw [if_pos hnav]
    simp only [hp]
    rw [if_neg hty1, if_neg hcp, if_neg hty2]
    rw [if_neg (by rintro ⟨-, h2⟩; exact h2 htop)]

def c5p : ActionPayload := { name := some (some RIGHT_MODAL_NAVIGATOR), params := none, path := none }

def c5a : NavAction := { type := NAVIGATE, payload := some c5p, target := none }

def c5root : NavState :=
  NavState.mk [{ name := LEFT_MODAL_NAVIGATOR, key := some "rL", params := none, state := none }]
    (some 0) (some "root")

theorem applyPolicy_modalRule_witness :
    applyPolicy c3env c5a (some c5root) c3s none =
      Except.ok ({ c5a with type := PUSH }, 1) := by
  have h := (applyPolicy_modalRule c3env c5a (some c5root) c3s c5p none rfl rfl
    (by decide) (by decide) (by decide)).1 (by decide)
  rw [h]
  rfl

/-- C8: calling `linkTo` with an absent navigation handle raises the
missing-handle error immediately: the trace records that error and shows no
dismissal, no dispatch and no reset (the collaborators are never consulted). -/
theorem linkTo_noHandle (env : LinkEnv) (path : String) (ty : Option String)
    (iar : Option Bool) :
    linkTo env none path ty iar =
      { dismissCount := 0, dispatched := none, resetTo := none
      , err := some LinkErr.noHandle } := rfl

/-- C1 (amended): if the first `k` levels (`k ≥ 1`) of the action's
name-chain match the tree's active branch, each with nested state
(`stepsK k` succeeds), *and the loop stops at the configuration reached
after those `k` descents* (the `(k+1)`-th level no longer matches, or lacks
a name, or the matching route has no nested state), then `getMinimalAction`
returns the action rebuilt after exactly `k` descents: its type is the input
type, its target the key of the node reached after `k` descents, and its
payload the input payload unwrapped `k` times.  (Without the stop condition
the claim is false: the loop keeps descending, see the counterexample.) -/
theorem getMinimalAction_k_descents (k : Nat) (a a' : NavAction) (s s' : NavState)
    (hk : 1 ≤ k) (hsteps : stepsK k a s = some (a', s'))
    (hstop : stopsNow a' s' = true) :
    getMinimalAction a s = Except.ok a' ∧
    a'.type = a.type ∧ nodeAt k s = some s' ∧ a'.target = s'.key ∧
    ∀ p, a.payload = some p → a'.payload = some (unwrapIter k p) := by
  obtain ⟨hgma, hty, hnode, hrest, -⟩ := stepsK_trace k a s a' s' hsteps
  obtain ⟨htg, hpl⟩ := hrest hk
  exact ⟨hgma.trans (getMinimalAction_stop a' s' hstop), hty, hnode, htg, hpl⟩

def c1p2 : ParamsVal := ParamsVal.mk (some "ScreenC") none none

def c1p1 : ParamsVal := ParamsVal.mk (some "ScreenB") (some c1p2) none

def c1payload : ActionPayload :=
  { name := some (some "ScreenA"), params := some c1p1, path := none }

def c1a : NavAction := { type := NAVIGATE, payload := some c1payload, target := none }

def c1s2 : NavState :=
  NavState.mk [{ name := "ScreenC", key := some "rC", params := none, state := none }]
    (some 0) (some "k2")

def c1s1 : NavState :=
  NavState.mk [{ name := "ScreenB", key := some "rB", params := none, state := some c1s2 }]
    (some 0) (some "k1")

def c1s : NavState :=
  NavState.mk [{ name := "ScreenA", key := some "rA", params := none, state := some c1s1 }]
    (some 0) (some "k0")

def c1res : NavAction :=
  { type := NAVIGATE
  , payload := some { name := some (some "ScreenC"), params := none, path := none }
  , target := some "k2" }

/-- C1 is false exactly as stated: on this action/tree pair the first `k = 1`
level matches with nested state, yet the returned action is not targeted at
the node reached after 1 descent (the loop goes on to a second matching
level and targets its key "k2", not "k1"). -/
theorem getMinimalAction_k_descents_counterexample :
    (stepsK 1 c1a c1s).isSome = true ∧
    getMinimalAction c1a c1s ≠
      Except.ok { type := c1a.type
                , payload := c1a.payload.map (unwrapIter 1)
                , target := (nodeAt 1 c1s).bind NavState.key } := by
  constructor
  · rfl
  · have h2 : stepsK 2 c1a c1s = some (c1res, c1s2) := rfl
    obtain ⟨hgma, -, -, -, -⟩ := stepsK_trace 2 c1a c1s c1res c1s2 h2
    have hstop : getMinimalAction c1res c1s2 = Except.ok c1res :=
      getMinimalAction_stop c1res c1s2 rfl
    rw [hgma, hstop]
    intro hcontra
    injection hcontra with hres
    have htg := congrArg NavAction.target hres
    exact absurd htg (by decide)

def c1wp : ActionPayload :=
  { name := some (some "ScreenA")
  , params := some (ParamsVal.mk (some "Other") none none), path := none }

def c1wa : NavAction := { type := NAVIGATE, payload := some c1wp, target := none }

def c1wres : NavAction :=
  { type := NAVIGATE
  , payload := some { name := some (some "Other"), params := none, path := none }
  , target := some "k1" }

theorem getMinimalAction_k_descents_witness :
    getMinimalAction c1wa c1s = Except.ok c1wres ∧
    c1wres.type = c1wa.type ∧ nodeAt 1 c1s = some c1s1 ∧
    c1wres.target = c1s1.key ∧
    ∀ p, c1wa.payload = some p → c1wres.payload = some (unwrapIter 1 p) :=
  getMinimalAction_k_descents 1 c1wa c1wres c1s c1s1 (by decide) rfl rfl

/-- C9 (amended): the route lookup of `getMinimalAction` is *not* total.  When the
payload still has a `name` property and the active-route lookup misses — in
particular when `routes` is empty at some depth, or when `index` is unset
(the code then reads `routes[-1]`, which is `undefined`, not the last
route) — reading `.name` of the missing route faults (TypeError) instead of
failing the name match. -/
theorem getMinimalAction_lookup_fault (a : NavAction) (s : NavState)
    (p : ActionPayload) (v : Option String)
    (hp : a.payload = some p) (hn : p.name = some v)
    (hcase : s.routes = [] ∨ s.index = none) :
    activeRouteLookup s = none ∧ getMinimalAction a s = Except.error () := by
  have hmiss : activeRouteLookup s = none := by
    unfold activeRouteLookup
    rcases hcase with hre | hie
    · cases hidx : s.index with
      | none => rfl
      | some i => rw [hre]; simp
    · rw [hie]
  exact ⟨hmiss, getMinimalAction_lookup_miss a s p v hp hn hmiss⟩

def c9p : ActionPayload := { name := some (some "ScreenA"), params := none, path := none }

def c9a : NavAction := { type := NAVIGATE, payload := some c9p, target := none }

def c9sEmpty : NavState := NavState.mk [] (some 0) (some "root")

def c9sNoIndex : NavState :=
  NavState.mk [{ name := "ScreenA", key := some "rA", params := none, state := none }]
    none (some "root")

/-- C9 is false as stated: with empty `routes` the reducer faults instead of
failing the name match and returning the action; and with `index` unset it
faults instead of taking the last route as active (here the last route's
name even equals the payload's name, so the spec's reading would stop
gracefully at it). -/
theorem getMinimalAction_lookup_fault_counterexample :
    (getMinimalAction c9a c9sEmpty = Except.error () ∧
      ¬ getMinimalAction c9a c9sEmpty = Except.ok c9a) ∧
    ((c9sNoIndex.routes.getLast?.map fun r => r.name) = some "ScreenA" ∧
      getMinimalAction c9a c9sNoIndex = Except.error ()) := by
  have h1 : getMinimalAction c9a c9sEmpty = Except.error () :=
    getMinimalAction_lookup_miss c9a c9sEmpty c9p (some "ScreenA") rfl rfl rfl
  have h2 : getMinimalAction c9a c9sNoIndex = Except.error () :=
    getMinimalAction_lookup_miss c9a c9sNoIndex c9p (some "ScreenA") rfl rfl rfl
  refine ⟨⟨h1, ?_⟩, rfl, h2⟩
  rw [h1]
  intro hc
  exact Except.noConfusion hc

theorem getMinimalAction_lookup_fault_witness :
    activeRouteLookup c9sEmpty = none ∧
    getMinimalAction c9a c9sEmpty = Except.error () :=
  getMinimalAction_lookup_fault c9a c9sEmpty c9p (some "ScreenA") rfl rfl (Or.inl rfl)

/-- C6: in the modal-minimization branch of `linkTo` (the possibly rewritten
action targets a modal-style navigator and minimization returns an action),
the two forcing rules hold: if `isActiveRoute` is not true and the caller's
hint was PUSH, the dispatched minimal action's type is PUSH (even when
minimization alone would have kept NAVIGATE); if the hint was REPLACE, the
dispatched minimal action's type is REPLACE. -/
theorem linkTo_forcing_rules (env : LinkEnv) (nav : NavHandle) (path : String)
    (ty : Option String) (iar : Option Bool) (a0 a m : NavAction) (dc : Nat)
    (ha : env.getActionFromState (env.getStateFromPath path) = some a0)
    (hpol : applyPolicy env a0 nav.rootState (env.getStateFromPath path) ty = Except.ok (a, dc))
    (hmod : isModalTargetedAction a = true)
    (hmin : getMinimalAction a nav.minimalRootState = Except.ok m) :
    (¬ iar = some true ∧ ty = some PUSH →
      (linkTo env (some nav) path ty iar).dispatched = some { m with type := PUSH }) ∧
    (ty = some REPLACE →
      (linkTo env (some nav) path ty iar).dispatched = some { m with type := REPLACE }) := by
  rw [linkTo_modal_shape env nav path ty iar a0 a dc ha hpol hmod,
    modalMinimalDispatch_ok a nav.minimalRootState ty iar dc m hmin]
  constructor
  · rintro ⟨h1, h2⟩
    simp only [h2]
    rw [if_neg (by decide : ¬ (some PUSH : Option String) = some REPLACE)]
    simp [h1]
  · intro h2
    simp only [h2]
    simp [PUSH, REPLACE]

def cmP : ActionPayload :=
  { name := some (some LEFT_MODAL_NAVIGATOR), params := none, path := none }

def cmA : NavAction := { type := PUSH, payload := some cmP, target := none }

def cmTopRoute : RouteF NavState :=
  { name := "HomeScreen", key := some "rH", params := none, state := none }

def cmRoot : NavState := NavState.mk [cmTopRoute] (some 0) (some "stackRoot")

def cmEnv : LinkEnv :=
  { getStateFromPath := fun _ => c3s
  , getActionFromState := fun _ => some cmA
  , getTopmostReportId := fun _ => none }

def cmNav : NavHandle := { rootState := none, minimalRootState := cmRoot }

theorem linkTo_forcing_rules_witness :
    (linkTo cmEnv (some cmNav) "p" (some PUSH) none).dispatched =
      some { cmA with type := PUSH } :=
  (linkTo_forcing_rules cmEnv cmNav "p" (some PUSH) none cmA cmA cmA 0 rfl rfl rfl
    (getMinimalAction_name_mismatch cmA cmRoot cmP (some LEFT_MODAL_NAVIGATOR)
      cmTopRoute rfl rfl rfl (by decide))).1 ⟨by decide, rfl⟩

/-- C7: when the state-to-action resolver returns absent, `linkTo` resets the
tree to exactly the state parsed from the path — no dispatch, no dismissal
and no error; and when an action was resolved (necessarily with a payload if
it is a NAVIGATE action, as the resolver guarantees) and the
modal-minimization branch is not taken, the (possibly rewritten) resolved
action is dispatched directly and reset is not called. -/
theorem linkTo_reset_or_direct (env : LinkEnv) (nav : NavHandle) (path : String)
    (ty : Option String) (iar : Option Bool) :
    (env.getActionFromState (env.getStateFromPath path) = none →
      linkTo env (some nav) path ty iar =
        { dismissCount := 0, dispatched := none
        , resetTo := some (env.getStateFromPath path), err := none }) ∧
    (∀ a0 a dc, env.getActionFromState (env.getStateFromPath path) = some a0 →
      applyPolicy env a0 nav.rootState (env.getStateFromPath path) ty = Except.ok (a, dc) →
      isModalTargetedAction a = false →
      linkTo env (some nav) path ty iar =
        { dismissCount := dc, dispatched := some a, resetTo := none, err := none }) :=
  ⟨fun ha => linkTo_reset_shape env nav path ty iar ha,
   fun a0 a dc ha hpol hmod => linkTo_direct_shape env nav path ty iar a0 a dc ha hpol hmod⟩

def c7envNone : LinkEnv :=
  { getStateFromPath := fun _ => c3s
  , getActionFromState := fun _ => none
  , getTopmostReportId := fun _ => none }

def c7p : ActionPayload := { name := some (some "HomeScreen"), params := none, path := none }

def c7a : NavAction := { type := PUSH, payload := some c7p, target := none }

def c7envSome : LinkEnv :=
  { getStateFromPath := fun _ => c3s
  , getActionFromState := fun _ => some c7a
  , getTopmostReportId := fun _ => none }

theorem linkTo_reset_or_direct_witness :
    linkTo c7envNone (some cmNav) "p" none none =
      { dismissCount := 0, dispatched := none, resetTo := some c3s, err := none } ∧
    linkTo c7envSome (some cmNav) "p" none none =
      { dismissCount := 0, dispatched := some c7a, resetTo := none, err := none } :=
  ⟨(linkTo_reset_or_direct c7envNone cmNav "p" none none).1 rfl,
   (linkTo_reset_or_direct c7envSome cmNav "p" none none).2 c7a c7a 0 rfl rfl rfl⟩

/-- C10 (amended): whenever `getMinimalAction` completes without faulting it
returns an action (the guard `if (minimalAction)` on the dispatch branch
never fails), so for a call whose (possibly rewritten) resolved action
targets a modal-style navigator, `linkTo` dispatches the minimal action:
the direct-dispatch and reset-fallback branches are not reached.  (When
minimization faults, `linkTo` propagates the fault and dispatches nothing —
see the counterexample to the unconditional claim.) -/
theorem linkTo_modal_dispatches (env : LinkEnv) (nav : NavHandle) (path : String)
    (ty : Option String) (iar : Option Bool) (a0 a m : NavAction) (dc : Nat)
    (ha : env.getActionFromState (env.getStateFromPath path) = some a0)
    (hpol : applyPolicy env a0 nav.rootState (env.getStateFromPath path) ty = Except.ok (a, dc))
    (hmod : isModalTargetedAction a = true)
    (hmin : getMinimalAction a nav.minimalRootState = Except.ok m) :
    (linkTo env (some nav) path ty iar).dispatched.isSome = true ∧
    (linkTo env (some nav) path ty iar).resetTo = none ∧
    (linkTo env (some nav) path ty iar).err = none := by
  rw [linkTo_modal_shape env nav path ty iar a0 a dc ha hpol hmod,
    modalMinimalDispatch_ok a nav.minimalRootState ty iar dc m hmin]
  exact ⟨rfl, rfl, rfl⟩

def c10s : NavState := NavState.mk [] (some 0) none

def c10nav : NavHandle := { rootState := none, minimalRootState := c10s }

/-- C10 is false as stated: `getMinimalAction` does not return a defined
action for *every* input — on this modal-targeted call it faults (TypeError
on the active-route lookup), and `linkTo` then dispatches nothing at all. -/
theorem linkTo_modal_dispatches_counterexample :
    isModalTargetedAction cmA = true ∧
    getMinimalAction cmA c10s = Except.error () ∧
    (linkTo cmEnv (some c10nav) "p" none none).dispatched = none ∧
    (linkTo cmEnv (some c10nav) "p" none none).err = some LinkErr.minimalFault := by
  have hm : getMinimalAction cmA c10s = Except.error () :=
    getMinimalAction_lookup_miss cmA c10s cmP (some LEFT_MODAL_NAVIGATOR) rfl rfl rfl
  have hshape : linkTo cmEnv (some c10nav) "p" none none =
      modalMinimalDispatch cmA c10nav.minimalRootState none none 0 :=
    linkTo_modal_shape cmEnv c10nav "p" none none cmA cmA 0 rfl rfl rfl
  have hfault : modalMinimalDispatch cmA c10nav.minimalRootState none none 0 =
      { dismissCount := 0, dispatched := none, resetTo := none
      , err := some LinkErr.minimalFault } :=
    modalMinimalDispatch_fault cmA c10nav.minimalRootState none none 0 hm
  exact ⟨rfl, hm, by rw [hshape, hfault], by rw [hshape, hfault]⟩

theorem linkTo_modal_dispatches_witness :
    (linkTo cmEnv (some cmNav) "p" none none).dispatched.isSome = true ∧
    (linkTo cmEnv (some cmNav) "p" none none).resetTo = none ∧
    (linkTo cmEnv (some cmNav) "p" none none).err = none :=
  linkTo_modal_dispatches cmEnv cmNav "p" none none cmA cmA cmA 0 rfl rfl rfl
    (getMinimalAction_name_mismatch cmA cmRoot cmP (some LEFT_MODAL_NAVIGATOR)
      cmTopRoute rfl rfl rfl (by decide))

end LinkToSpec
